import Mathlib

/-!
Verification of the tarball-generation pipeline of `mediawiki-extdist`
(`src/mediawiki_extdist/__init__.py`): a nightly batch job that mirrors
MediaWiki extension repositories, builds one tarball per
(extension, branch) key and publishes it into a distribution directory.

The shallow embedding models:

* the per-branch body of `TarballGenerator.update_extension`
  (lines 154-227), with the shelled-out git commands abstracted as a
  `GitEnv` oracle recording, for each command, whether it succeeds, and
  the raw textual outputs of the commands whose output the program
  consumes;
* the tarball-moving epilogue of `update_extension` (lines 228-232);
* the provenance (`gitinfo.json`) derivation (lines 195-212);
* the lock-file logic of `TarballGenerator.init` / `check_pid` /
  `create_pid_file` (lines 105-131, 239-259);
* the repository loop of `TarballGenerator.run` (lines 261-276).

Directories are modelled as finite sets of file names.  File contents
other than the lock file and `gitinfo.json` are not consulted by any
property below and are not modelled.  The composer invocation
(lines 185-194) mutates none of the modelled state (its failure is
caught in the source and only logged), and the probabilistic `git gc`
maintenance (lines 235-237) touches no modelled state either.
-/

/-- The canonical name `'%s-%s.tar.gz' % (ext, branch)` (line 181) of the
published tarball for the key `(ext, branch)`. -/
def tarball_fname (ext branch : String) : String :=
  ext ++ "-" ++ branch ++ ".tar.gz"

/-- The glob pattern `'%s-%s-*.tar.gz' % (ext, branch)` used on line 220 to
collect old tarballs: a name matches iff it is
`ext ++ "-" ++ branch ++ "-" ++ s ++ ".tar.gz"` for some (possibly empty)
string `s`, i.e. the literal prefix and the literal suffix both match
without overlapping. -/
def old_tarball_match (ext branch : String) (f : String) : Bool :=
  (ext ++ "-" ++ branch ++ "-").data.isPrefixOf f.data &&
  ".tar.gz".data.isSuffixOf f.data &&
  decide ((ext ++ "-" ++ branch ++ "-").data.length +
          ".tar.gz".data.length ≤ f.data.length)

/-- The glob pattern `'*.tar.gz'` used on line 229 to collect the tarballs
sitting in the shared source root.  `glob` never lets `*` match a leading
dot, so hidden files are excluded. -/
def glob_targz (f : String) : Bool :=
  ".tar.gz".data.isSuffixOf f.data && !(".".data.isPrefixOf f.data)

/-- Python's `str.strip()`: remove leading and trailing whitespace. -/
def pyStrip (l : List Char) : List Char :=
  ((l.dropWhile Char.isWhitespace).reverse.dropWhile Char.isWhitespace).reverse

/-- Line 179: `shell_exec(['git', 'rev-parse', '--short=7', 'HEAD']).strip()`,
the raw command output with surrounding whitespace removed. -/
def extract_rev (out : String) : String := String.mk (pyStrip out.data)

/-- The oracle for one iteration of the branch loop: the results of the
git commands `update_extension` shells out to.  The `…Ok` fields record
whether the corresponding `subprocess.check_output` call succeeds; the
`String` fields are raw command outputs / file contents (including any
trailing newline), exactly as the program reads them. -/
structure GitEnv where
  /-- whether `git remote set-url origin <url>` (line 158) succeeds -/
  setUrlOk : Bool
  /-- whether `git fetch` (line 160) succeeds -/
  fetchOk : Bool
  /-- whether `git reset --hard origin/master` (line 163) succeeds -/
  resetOk : Bool
  /-- whether `git clean -ffdx` (line 165) succeeds -/
  cleanAllOk : Bool
  /-- whether `git checkout origin/<branch>` (line 167) succeeds -/
  branchExists : Bool
  /-- whether `git clean -ffd` (line 173) succeeds -/
  cleanOk : Bool
  /-- whether `git submodule sync` (line 175) succeeds -/
  submoduleSyncOk : Bool
  /-- whether `git submodule update --init` (line 177) succeeds -/
  submoduleUpdateOk : Bool
  /-- output of `git rev-parse --short=7 HEAD` (line 179) -/
  revOut : String
  /-- content of the file `.git/HEAD` (lines 197-198) -/
  headContent : String
  /-- output of `git rev-parse HEAD` (line 203) -/
  sha1Out : String
  /-- output of `git show -s --format=format:%ct HEAD` (line 204) -/
  commitDateOut : String
deriving DecidableEq

/-- All-commands-succeed predicate used as a hypothesis by several
properties below. -/
def gitOk (env : GitEnv) : Bool :=
  env.setUrlOk && env.fetchOk && env.resetOk && env.cleanAllOk &&
  env.branchExists && env.cleanOk && env.submoduleSyncOk &&
  env.submoduleUpdateOk

/-- Line 206: `head.split('/')[-1]`, the final `'/'`-separated segment of
a character list (the whole list when it contains no `'/'`).  Python's
`split` makes the text after the last separator the last list element, so
taking `[-1]` is exactly "restart collecting at every `'/'`". -/
def lastSegment (l : List Char) : List Char :=
  l.foldl (fun acc c => if c = '/' then [] else acc ++ [c]) []

/-- Lines 198-200: the value of the local variable `head` after reading
`.git/HEAD` - a leading `'ref:'` marker is detected with `startswith` and
stripped by dropping five characters (`head[5:]`). -/
def derive_head (l : List Char) : List Char :=
  if "ref:".data.isPrefixOf l then l.drop 5 else l

/-- Lines 205-208: the `branch` field recorded in `gitinfo.json` - the
final path segment when `head` starts with `'refs/heads'`, otherwise
`head` verbatim. -/
def derive_branchL (head : List Char) : List Char :=
  if "refs/heads".data.isPrefixOf head then lastSegment head else head

/-- The url `GIT_URL % ext` with the template configured in `main`
(line 284). -/
def git_url (ext : String) : String :=
  "https://gerrit.wikimedia.org/r/mediawiki/extensions/" ++ ext

/-- The JSON object written to `gitinfo.json` (lines 196-212).  No field
is stripped of whitespace in the source; the embedding keeps the raw
values likewise. -/
structure GitInfo where
  head : String
  headSHA1 : String
  headCommitDate : String
  branch : String
  remoteURL : String
deriving DecidableEq

/-- Lines 196-210: assemble the provenance record from the checkout. -/
def mk_git_info (ext : String) (env : GitEnv) : GitInfo :=
  let head := String.mk (derive_head env.headContent.data)
  { head := head
    headSHA1 := env.sha1Out
    headCommitDate := env.commitDateOut
    branch := String.mk (derive_branchL head.data)
    remoteURL := git_url ext }

/-- The filesystem state touched by `update_extension`: the file names in
the publish directory `DIST_PATH`, the file names directly in the shared
source root `EXT_PATH` (where the tarballs are created before being
moved), and the content of the checkout's `gitinfo.json` (`none` until
first written). -/
structure FSState where
  distFiles : Finset String
  srcFiles : Finset String
  gitinfo : Option GitInfo
deriving DecidableEq

/-- What one iteration of the branch loop did. -/
inductive BranchOutcome where
  /-- a `CalledProcessError` raised by lines 163-167 was caught on
  line 168: a warning is logged and the loop continues (line 171) -/
  | skippedCheckout
  /-- line 182: the tarball is already published and `--force` is unset,
  so the loop continues (line 184); `rev` was extracted on line 179 -/
  | skippedExists (rev : String)
  /-- the full build path ran: provenance written, old tarballs pruned,
  tarball created in the source root -/
  | built (rev : String) (info : GitInfo)
deriving DecidableEq

/-- Lines 220-224: delete from the publish directory every file matching
the glob `'%s-%s-*.tar.gz' % (ext, branch)`. -/
def prune_dist (ext branch : String) (dist : Finset String) : Finset String :=
  dist.filter (fun f => old_tarball_match ext branch f = false)

/-- One iteration of the `for branch in …` loop of `update_extension`
(lines 154-227).  A failing command outside the `try` of lines 161-168
raises `subprocess.CalledProcessError`, which propagates out of
`update_extension`; this is modelled as `Except.error` naming the failed
command.  A failure inside the `try` is caught and the branch skipped. -/
def process_branch (force : Bool) (ext branch : String) (env : GitEnv)
    (s : FSState) : Except String (FSState × BranchOutcome) :=
  if !env.setUrlOk then .error "git remote set-url origin"
  else if !env.fetchOk then .error "git fetch"
  else if !(env.resetOk && env.cleanAllOk && env.branchExists) then
    .ok (s, .skippedCheckout)
  else if !env.cleanOk then .error "git clean -ffd"
  else if !env.submoduleSyncOk then .error "git submodule sync"
  else if !env.submoduleUpdateOk then .error "git submodule update --init"
  else if force = false ∧ tarball_fname ext branch ∈ s.distFiles then
    .ok (s, .skippedExists (extract_rev env.revOut))
  else
    .ok ({ distFiles := prune_dist ext branch s.distFiles
           srcFiles := insert (tarball_fname ext branch) s.srcFiles
           gitinfo := some (mk_git_info ext env) },
         .built (extract_rev env.revOut) (mk_git_info ext env))

/-- The whole branch loop (line 154), threading the filesystem state and
recording each branch's outcome; an uncaught `CalledProcessError` aborts
the remaining branches. -/
def process_branches (force : Bool) (ext : String) (envs : String → GitEnv) :
    List String → FSState → Except String (FSState × List (String × BranchOutcome))
  | [], s => .ok (s, [])
  | b :: rest, s =>
    (process_branch force ext b (envs b) s).bind (fun p =>
      (process_branches force ext envs rest p.1).bind (fun q =>
        .ok (q.1, (b, p.2) :: q.2)))

/-- Lines 228-232: move every file in the shared source root matching
`*.tar.gz` into the publish directory; `shutil.move` overwrites an
existing file of the same name there. -/
def move_tarballs (s : FSState) : FSState :=
  { distFiles := s.distFiles ∪ s.srcFiles.filter (fun f => glob_targz f = true)
    srcFiles := s.srcFiles.filter (fun f => glob_targz f = false)
    gitinfo := s.gitinfo }

/-- The method `update_extension` from the branch loop on
(lines 154-233).  The
clone-if-absent step of lines 149-153 precedes the modelled region and
creates no `*.tar.gz` entry in the modelled state. -/
def update_extension (force : Bool) (ext : String) (branches : List String)
    (envs : String → GitEnv) (s : FSState) :
    Except String (FSState × List (String × BranchOutcome)) :=
  (process_branches force ext envs branches s).map (fun p =>
    (move_tarballs p.1, p.2))

/-- The digit string accepted by Python's `int`: nonempty, all ASCII
decimal digits, evaluated in base 10. -/
def digitsVal? (l : List Char) : Option Nat :=
  if l = [] then none
  else if l.all (fun c => c.isDigit) then
    some (l.foldl (fun n c => 10 * n + (c.toNat - 48)) 0)
  else none

/-- Python `int(...)` applied to the lock-file text (line 121): leading
and trailing whitespace is stripped, then an optional sign followed by a
nonempty digit string is accepted; anything else raises `ValueError`. -/
def pythonInt? (s : String) : Option Int :=
  match pyStrip s.data with
  | '+' :: rest => (digitsVal? rest).map (fun n => (n : Int))
  | '-' :: rest => (digitsVal? rest).map (fun n => -(n : Int))
  | l => (digitsVal? l).map (fun n => (n : Int))

/-- The pieces of filesystem state touched by `TarballGenerator.init`:
the lock file (`none` when absent) and the existence of the source and
publish directories (lines 127-131). -/
structure InitState where
  pidFile : Option String
  extPathExists : Bool
  distPathExists : Bool
deriving DecidableEq

/-- How `TarballGenerator.init` ends. -/
inductive InitOutcome where
  /-- line 123: `quit()` - another live process holds the lock -/
  | quitted
  /-- an uncaught exception, e.g. `ValueError` from `int` on line 121 -/
  | raised (msg : String)
  /-- the lock file was written with the current pid and the directories
  were ensured; the caller goes on to the batch loop -/
  | proceeded
deriving DecidableEq

/-- The method `TarballGenerator.init` (lines 105-131) together with
`check_pid`
(lines 239-251, abstracted as the `alive` oracle: `os.kill(pid, 0)`
succeeding) and `create_pid_file` (lines 253-259, which overwrites the
lock file with `str(os.getpid())`). -/
def init_model (alive : Int → Bool) (myPid : Nat) (st : InitState) :
    InitState × InitOutcome :=
  match st.pidFile with
  | some content =>
    match pythonInt? content with
    | none => (st, .raised "ValueError")
    | some p =>
      if alive p then (st, .quitted)
      else ({ pidFile := some (toString myPid), extPathExists := true,
              distPathExists := true }, .proceeded)
  | none =>
    ({ pidFile := some (toString myPid), extPathExists := true,
       distPathExists := true }, .proceeded)

/-- The process exit status caused by each `init` outcome, modelled from
the Python runtime semantics the source relies on: `quit()` raises
`SystemExit(None)`, which CPython maps to exit status `0`; an uncaught
exception terminates the interpreter with status `1`; `proceeded` does
not exit. -/
def init_exit_status : InitOutcome → Option Nat
  | .quitted => some 0
  | .raised _ => some 1
  | .proceeded => none

/-- How `update_extension` ends for one repository, as seen by the
`try`/`except` of `TarballGenerator.run` (lines 268-275). -/
inductive RepoOutcome where
  /-- the update completed normally -/
  | ok
  /-- some `Exception` was raised: logged, and the loop continues
  (lines 273-275) -/
  | failed
  /-- a `KeyboardInterrupt` was raised: `sys.exit(1)` (lines 270-272) -/
  | interrupted
deriving DecidableEq

/-- The repository loop of `TarballGenerator.run` (lines 267-275): the
repositories attempted, in order, and whether the run was aborted by an
operator interrupt. -/
def run_repos (outcome : String → RepoOutcome) :
    List String → List String × Bool
  | [] => ([], false)
  | r :: rest =>
    match outcome r with
    | .interrupted => ([r], true)
    | _ =>
      let res := run_repos outcome rest
      (r :: res.1, res.2)

/-- The method `TarballGenerator.run` (lines 261-276): `init` gates the
batch loop;
when `init` quits or raises, no repository is ever attempted. -/
def run_model (alive : Int → Bool) (myPid : Nat) (st : InitState)
    (outcome : String → RepoOutcome) (repos : List String) :
    InitState × InitOutcome × List String × Bool :=
  match init_model alive myPid st with
  | (st', .proceeded) =>
    let res := run_repos outcome repos
    (st', .proceeded, res.1, res.2)
  | (st', o) => (st', o, [], false)

/-- Modelled from the spec: the version-control collaborator behind
`shell_exec(['git', 'rev-parse', '--short=7', 'HEAD'])` on line 179 (the
source shells out to git, which is not part of this repository).  git
documents `--short=<n>` as shortening the object name "to a unique prefix
with at least `n` hexadecimal digits": the printed abbreviation is the
prefix of the full hash of length `max 7 u`, where `u` is the shortest
prefix length that is unambiguous in the repository's object store.  The
trailing newline of the command output is added by the caller where
relevant. -/
def rev_parse_short7 (sha : String) (uniqLen : Nat) : String :=
  String.mk (sha.data.take (max 7 uniqLen))

/-- A branch iteration in which every git command succeeds, the checkout
is a clean pin of `origin/REL1_43`, and the short revision is
unambiguous. -/
def envAllOk : GitEnv :=
  { setUrlOk := true, fetchOk := true, resetOk := true, cleanAllOk := true,
    branchExists := true, cleanOk := true, submoduleSyncOk := true,
    submoduleUpdateOk := true, revOut := "0a1b2c3\n",
    headContent := "ref: refs/heads/REL1_43\n",
    sha1Out := "0a1b2c3d4e5f60718293a4b5c6d7e8f901234567\n",
    commitDateOut := "1712345678" }

/-- Like `envAllOk`, but `git reset --hard origin/master` fails (e.g. the
remote repository is empty, as the comment on line 162 anticipates) while
the requested branch itself does exist. -/
def envResetFails : GitEnv := { envAllOk with resetOk := false }

/-- Like `envAllOk`, but `git fetch` (outside the `try` block) fails. -/
def envFetchFails : GitEnv := { envAllOk with fetchOk := false }

/-- Like `envAllOk`, but `HEAD` names the local branch `main`, as in a
freshly cloned repository whose default branch is `main`; git writes the
file with a trailing newline. -/
def envMainHead : GitEnv := { envAllOk with headContent := "ref: refs/heads/main\n" }

/-- Like `envAllOk`, but with a detached `HEAD`: the file holds a raw
commit id (newline-terminated, as git writes it). -/
def envDetached : GitEnv :=
  { envAllOk with headContent := "0a1b2c3d4e5f60718293a4b5c6d7e8f901234567\n" }

instance exceptDecEq {ε α : Type} [DecidableEq ε] [DecidableEq α] :
    DecidableEq (Except ε α) := fun a b =>
  match a, b with
  | .error x, .error y =>
    if h : x = y then .isTrue (by rw [h]) else .isFalse (by simp [h])
  | .ok x, .ok y =>
    if h : x = y then .isTrue (by rw [h]) else .isFalse (by simp [h])
  | .error _, .ok _ => .isFalse (by simp)
  | .ok _, .error _ => .isFalse (by simp)

theorem isPrefixOf_append_self (p l : List Char) :
    p.isPrefixOf (p ++ l) = true := by
  induction p with
  | nil => simp [List.isPrefixOf]
  | cons a as ih => simp [List.isPrefixOf, ih]

theorem isPrefixOf_snoc_ne (p : List Char) (x y : Char) (t : List Char)
    (h : x ≠ y) : (p ++ [x]).isPrefixOf (p ++ y :: t) = false := by
  induction p with
  | nil => simp [List.isPrefixOf, h]
  | cons a as ih => simp [List.isPrefixOf, ih]

/-- The canonical tarball name of a key never matches the key's
old-tarball glob: the two patterns disagree right after the
`ext ++ "-" ++ branch` stem (`'-'` versus `'.'`). -/
theorem old_tarball_match_canonical (ext branch : String) :
    old_tarball_match ext branch (tarball_fname ext branch) = false := by
  have hpre : ((ext ++ "-" ++ branch ++ "-").data).isPrefixOf
      ((tarball_fname ext branch).data) = false := by
    have e1 : (ext ++ "-" ++ branch ++ "-").data
        = (ext ++ "-" ++ branch).data ++ ['-'] := by
      rw [String.data_append]
    have e2 : (tarball_fname ext branch).data
        = (ext ++ "-" ++ branch).data ++ '.' :: "tar.gz".data := by
      rw [tarball_fname, String.data_append]
    rw [e1, e2]
    exact isPrefixOf_snoc_ne _ _ _ _ (by decide)
  rw [old_tarball_match, hpre]
  rfl

theorem gitOk_spec {env : GitEnv} (h : gitOk env = true) :
    env.setUrlOk = true ∧ env.fetchOk = true ∧ env.resetOk = true ∧
    env.cleanAllOk = true ∧ env.branchExists = true ∧ env.cleanOk = true ∧
    env.submoduleSyncOk = true ∧ env.submoduleUpdateOk = true := by
  rw [gitOk] at h
  simp only [Bool.and_eq_true] at h
  exact ⟨h.1.1.1.1.1.1.1, h.1.1.1.1.1.1.2, h.1.1.1.1.1.2, h.1.1.1.1.2,
         h.1.1.1.2, h.1.1.2, h.1.2, h.2⟩

/-- The build path of one branch iteration: every git command succeeds and
the skip test of line 182 does not fire. -/
theorem process_branch_build (force : Bool) (ext branch : String)
    (env : GitEnv) (s : FSState) (hok : gitOk env = true)
    (hb : ¬(force = false ∧ tarball_fname ext branch ∈ s.distFiles)) :
    process_branch force ext branch env s =
      .ok ({ distFiles := prune_dist ext branch s.distFiles
             srcFiles := insert (tarball_fname ext branch) s.srcFiles
             gitinfo := some (mk_git_info ext env) },
           .built (extract_rev env.revOut) (mk_git_info ext env)) := by
  obtain ⟨h1, h2, h3, h4, h5, h6, h7, h8⟩ := gitOk_spec hok
  rw [process_branch]
  simp [h1, h2, h3, h4, h5, h6, h7, h8, hb]

/-- The skip path of line 182: the canonical tarball is already published
and `--force` is unset; the state - in particular the provenance record -
is left untouched. -/
theorem process_branch_skip (ext branch : String) (env : GitEnv)
    (s : FSState) (hok : gitOk env = true)
    (hmem : tarball_fname ext branch ∈ s.distFiles) :
    process_branch false ext branch env s =
      .ok (s, .skippedExists (extract_rev env.revOut)) := by
  obtain ⟨h1, h2, h3, h4, h5, h6, h7, h8⟩ := gitOk_spec hok
  rw [process_branch]
  simp [h1, h2, h3, h4, h5, h6, h7, h8, hmem]

/-- Any branch iteration can only add files to the shared source root. -/
theorem process_branch_src_mono {force : Bool} {ext branch : String}
    {env : GitEnv} {s s' : FSState} {o : BranchOutcome}
    (h : process_branch force ext branch env s = .ok (s', o)) :
    s.srcFiles ⊆ s'.srcFiles := by
  rw [process_branch] at h
  split at h
  · cases h
  · split at h
    · cases h
    · split at h
      · simp only [Except.ok.injEq, Prod.mk.injEq] at h
        rw [← h.1]
      · split at h
        · cases h
        · split at h
          · cases h
          · split at h
            · cases h
            · split at h
              · simp only [Except.ok.injEq, Prod.mk.injEq] at h
                rw [← h.1]
              · simp only [Except.ok.injEq, Prod.mk.injEq] at h
                rw [← h.1]
                exact fun x hx => Finset.mem_insert_of_mem hx

/-- The whole branch loop can only add files to the shared source root. -/
theorem process_branches_src_mono {force : Bool} {ext : String}
    {envs : String → GitEnv} {branches : List String} {s s' : FSState}
    {outs : List (String × BranchOutcome)}
    (h : process_branches force ext envs branches s = .ok (s', outs)) :
    s.srcFiles ⊆ s'.srcFiles := by
  induction branches generalizing s outs with
  | nil =>
    rw [process_branches] at h
    simp only [Except.ok.injEq, Prod.mk.injEq] at h
    rw [h.1]
  | cons b rest ih =>
    rw [process_branches] at h
    cases hb : process_branch force ext b (envs b) s with
    | error e => rw [hb] at h; cases h
    | ok p =>
      rw [hb] at h
      obtain ⟨s₀, out⟩ := p
      simp only [Except.bind] at h
      cases hr : process_branches force ext envs rest s₀ with
      | error e => rw [hr] at h; cases h
      | ok q =>
        rw [hr] at h
        obtain ⟨s₁, outs₁⟩ := q
        simp only [Except.bind, Except.ok.injEq, Prod.mk.injEq] at h
        exact (process_branch_src_mono hb).trans (ih (h.1 ▸ hr))

/-- Folding the segment-collector of `lastSegment` over slash-free input
appends that input to the accumulator. -/
theorem foldl_seg_no_slash (b : List Char) (h : '/' ∉ b) (acc : List Char) :
    b.foldl (fun acc c => if c = '/' then [] else acc ++ [c]) acc = acc ++ b := by
  induction b generalizing acc with
  | nil => simp
  | cons c cs ih =>
    have hc : ¬(c = '/') := by
      intro e
      exact h (by rw [e]; exact List.mem_cons_self _ _)
    have hcs : '/' ∉ cs := fun m => h (List.mem_cons_of_mem _ m)
    rw [List.foldl_cons, if_neg hc, ih hcs, List.append_assoc]
    rfl

/-- Taking `split('/')[-1]` of anything of the shape `p ++ "/" ++ b` with a
slash-free tail `b` is exactly `b`. -/
theorem lastSegment_append_no_slash (p b : List Char) (h : '/' ∉ b) :
    lastSegment (p ++ '/' :: b) = b := by
  rw [lastSegment, List.foldl_append, List.foldl_cons, if_pos rfl]
  rw [foldl_seg_no_slash b h []]
  rfl

/-- C1: the previously published artifact of a key is never deleted by the
prune step - the prune glob `'%s-%s-*.tar.gz'` (line 220) requires a `'-'`
right after the `ext-branch` stem, while the canonical artifact name
`'%s-%s.tar.gz'` (line 181) continues with `'.'`.  Concretely, with
`--force` set and `VisualEditor-REL1_43.tar.gz` already published, the
build path reaches the prune of lines 220-224 and the old artifact
survives it; it is only replaced later by the move of lines 228-232.
This refutes "the prune step deletes every previously existing published
artifact matching that key before the new archive is installed". -/
theorem c1_prune_misses_canonical :
    tarball_fname "VisualEditor" "REL1_43" ∈
      prune_dist "VisualEditor" "REL1_43"
        {tarball_fname "VisualEditor" "REL1_43"} ∧
    old_tarball_match "VisualEditor" "REL1_43"
      (tarball_fname "VisualEditor" "REL1_43") = false := by decide

/-- C1 (amended): on the build path (here under a forced rebuild, with a
clean source root) the publish step leaves exactly one artifact for the
key: every file matching the legacy prune glob is removed from the publish
directory, the canonical artifact is installed, and filtering the final
publish directory for the key's artifacts - canonical name or legacy
pattern - yields precisely the canonical file.  The pre-existing canonical
artifact, however, is removed by the overwriting move, not by the prune
(see `c1_prune_misses_canonical`). -/
theorem c1_at_most_one_artifact_per_key (ext branch : String) (env : GitEnv)
    (s : FSState) (hok : gitOk env = true) (hsrc : s.srcFiles = ∅)
    (hglob : glob_targz (tarball_fname ext branch) = true) :
    ∃ s₁ outs,
      update_extension true ext [branch] (fun _ => env) s = .ok (s₁, outs) ∧
      tarball_fname ext branch ∈ s₁.distFiles ∧
      (∀ f ∈ s₁.distFiles, old_tarball_match ext branch f = false) ∧
      s₁.distFiles.filter
          (fun f => f = tarball_fname ext branch ∨
                    old_tarball_match ext branch f = true)
        = {tarball_fname ext branch} := by
  have hb : ¬(true = false ∧ tarball_fname ext branch ∈ s.distFiles) := by
    simp
  have hpb := process_branch_build true ext branch env s hok hb
  have hins : insert (tarball_fname ext branch) s.srcFiles
      = {tarball_fname ext branch} := by rw [hsrc]; rfl
  have hfilt : ({tarball_fname ext branch} : Finset String).filter
      (fun f => glob_targz f = true) = {tarball_fname ext branch} := by
    rw [Finset.filter_singleton, if_pos hglob]
  have hfilt2 : ({tarball_fname ext branch} : Finset String).filter
      (fun f => glob_targz f = false) = ∅ := by
    rw [Finset.filter_singleton, if_neg (by simp [hglob])]
  have hmem : tarball_fname ext branch ∈
      prune_dist ext branch s.distFiles ∪ {tarball_fname ext branch} :=
    Finset.mem_union_right _ (Finset.mem_singleton_self _)
  have hall : ∀ f ∈ prune_dist ext branch s.distFiles ∪
      {tarball_fname ext branch}, old_tarball_match ext branch f = false := by
    intro f hf
    rcases Finset.mem_union.mp hf with hl | hr
    · rw [prune_dist] at hl
      exact (Finset.mem_filter.mp hl).2
    · rw [Finset.mem_singleton.mp hr]
      exact old_tarball_match_canonical ext branch
  refine ⟨⟨prune_dist ext branch s.distFiles ∪ {tarball_fname ext branch},
           ∅, some (mk_git_info ext env)⟩,
          [(branch, .built (extract_rev env.revOut) (mk_git_info ext env))],
          ?_, hmem, hall, ?_⟩
  · rw [update_extension, process_branches, hpb]
    simp only [Except.bind, process_branches, Except.map, move_tarballs, hins,
      hfilt, hfilt2]
  · apply Finset.ext
    intro f
    simp only [Finset.mem_filter, Finset.mem_singleton]
    constructor
    · rintro ⟨hf, hcase⟩
      rcases hcase with h | h
      · exact h
      · rw [hall f hf] at h
        cases h
    · intro h
      rw [h]
      exact ⟨hmem, Or.inl rfl⟩

/-- Witness for `c1_at_most_one_artifact_per_key` at a concrete forced
rebuild over a publish directory already holding the canonical artifact
and a stale legacy artifact. -/
theorem c1_at_most_one_artifact_per_key_witness :
    gitOk envAllOk = true ∧
    (FSState.mk {"VisualEditor-REL1_43.tar.gz",
                 "VisualEditor-REL1_43-0a1b2c3.tar.gz"} ∅ none).srcFiles = ∅ ∧
    glob_targz (tarball_fname "VisualEditor" "REL1_43") = true ∧
    (∃ s₁ outs,
      update_extension true "VisualEditor" ["REL1_43"] (fun _ => envAllOk)
          ⟨{"VisualEditor-REL1_43.tar.gz",
            "VisualEditor-REL1_43-0a1b2c3.tar.gz"}, ∅, none⟩ = .ok (s₁, outs) ∧
      tarball_fname "VisualEditor" "REL1_43" ∈ s₁.distFiles ∧
      (∀ f ∈ s₁.distFiles,
        old_tarball_match "VisualEditor" "REL1_43" f = false) ∧
      s₁.distFiles.filter
          (fun f => f = tarball_fname "VisualEditor" "REL1_43" ∨
                    old_tarball_match "VisualEditor" "REL1_43" f = true)
        = {tarball_fname "VisualEditor" "REL1_43"}) :=
  ⟨by decide, by decide, by decide,
   c1_at_most_one_artifact_per_key "VisualEditor" "REL1_43" envAllOk
     ⟨{"VisualEditor-REL1_43.tar.gz",
       "VisualEditor-REL1_43-0a1b2c3.tar.gz"}, ∅, none⟩
     (by decide) (by decide) (by decide)⟩

/-- C2: a lock file recording a live pid makes the run quit before any
repository is processed and without mutating any modelled state - but the
exit path is Python's `quit()` (line 123), which raises
`SystemExit(None)` and therefore terminates with exit status `0`.  This
refutes "exits with a non-zero exit code". -/
theorem c2_lock_held_exit_status_zero :
    run_model (fun p => p == 42) 7 ⟨some "42", false, false⟩
        (fun _ => .ok) ["VisualEditor"]
      = (⟨some "42", false, false⟩, .quitted, [], false) ∧
    init_exit_status .quitted = some 0 := by decide

/-- C2 (amended): whenever the lock file holds the pid of a live process,
the whole run quits immediately: the filesystem state (lock file and
directories) is returned unchanged, no repository is attempted, and the
process exits - with status `0` via `quit()`, not with a non-zero
status. -/
theorem c2_lock_held_aborts (alive : Int → Bool) (myPid : Nat)
    (st : InitState) (content : String) (p : Int)
    (outcome : String → RepoOutcome) (repos : List String)
    (hfile : st.pidFile = some content)
    (hparse : pythonInt? content = some p) (halive : alive p = true) :
    run_model alive myPid st outcome repos = (st, .quitted, [], false) ∧
    init_exit_status .quitted = some 0 := by
  refine ⟨?_, rfl⟩
  rw [run_model, init_model, hfile]
  simp [hparse, halive]

/-- Witness for `c2_lock_held_aborts` on a lock file holding pid 42 with
process 42 alive. -/
theorem c2_lock_held_aborts_witness :
    pythonInt? "42" = some 42 ∧ ((fun p : Int => p == 42) 42) = true ∧
    (run_model (fun p => p == 42) 7 ⟨some "42", true, true⟩
        (fun _ => .failed) ["VisualEditor", "Vector"]
      = (⟨some "42", true, true⟩, .quitted, [], false) ∧
     init_exit_status .quitted = some 0) :=
  ⟨by decide, by decide,
   c2_lock_held_aborts (fun p => p == 42) 7 ⟨some "42", true, true⟩ "42" 42
     (fun _ => .failed) ["VisualEditor", "Vector"] rfl (by decide) (by decide)⟩

/-- C3: a `git reset --hard origin/master` failure (here: the upstream
repository is empty, while the requested branch itself is fine) happens
inside the `try` of lines 161-168, so it is caught and the branch merely
skipped - it does not propagate and does not abort the repository.  This
refutes "every other version-control failure for the repository
propagates to the caller". -/
theorem c3_reset_failure_not_fatal :
    process_branch false "VisualEditor" "REL1_43" envResetFails ⟨∅, ∅, none⟩
      = .ok (⟨∅, ∅, none⟩, .skippedCheckout) ∧
    envResetFails.branchExists = true ∧ envResetFails.resetOk = false := by
  refine ⟨?_, by decide, by decide⟩
  rw [process_branch]
  simp [envResetFails, envAllOk]

/-- C3 (amended): the non-fatal region is exactly the `try` block of
lines 161-168: any failure of the baseline reset, the full clean, or the
branch checkout (in particular a missing remote branch) skips just that
branch, and the loop then continues with the remaining branches; a
failure of a command outside that block (here `git fetch`) raises
`CalledProcessError`, which propagates and aborts the whole
repository. -/
theorem c3_try_block_is_skip_scope (force : Bool) (ext branch : String)
    (env₁ env₂ : GitEnv) (s : FSState) (rest : List String)
    (envs : String → GitEnv)
    (h₁u : env₁.setUrlOk = true) (h₁f : env₁.fetchOk = true)
    (h₁c : (env₁.resetOk && env₁.cleanAllOk && env₁.branchExists) = false)
    (h₂u : env₂.setUrlOk = true) (h₂f : env₂.fetchOk = false)
    (henv : envs branch = env₁) :
    process_branch force ext branch env₁ s = .ok (s, .skippedCheckout) ∧
    process_branch force ext branch env₂ s = .error "git fetch" ∧
    process_branches force ext envs (branch :: rest) s =
      (process_branches force ext envs rest s).bind
        (fun q => .ok (q.1, (branch, .skippedCheckout) :: q.2)) := by
  have first : process_branch force ext branch env₁ s
      = .ok (s, .skippedCheckout) := by
    rw [process_branch]
    simp [h₁u, h₁f, h₁c]
  refine ⟨first, ?_, ?_⟩
  · rw [process_branch]
    simp [h₂u, h₂f]
  · rw [process_branches, henv, first]
    rfl

/-- Witness for `c3_try_block_is_skip_scope`: the branch is missing
upstream in the first scenario, `git fetch` dies in the second, and the
loop goes on to build the next branch after the skip. -/
theorem c3_try_block_is_skip_scope_witness :
    (GitEnv.setUrlOk { envAllOk with branchExists := false } = true) ∧
    ((GitEnv.resetOk { envAllOk with branchExists := false } &&
      GitEnv.cleanAllOk { envAllOk with branchExists := false } &&
      GitEnv.branchExists { envAllOk with branchExists := false }) = false) ∧
    envFetchFails.fetchOk = false ∧
    (process_branch false "VisualEditor" "REL1_39"
        { envAllOk with branchExists := false } ⟨∅, ∅, none⟩
      = .ok (⟨∅, ∅, none⟩, .skippedCheckout) ∧
     process_branch false "VisualEditor" "REL1_39" envFetchFails ⟨∅, ∅, none⟩
      = .error "git fetch" ∧
     process_branches false "VisualEditor"
        (fun b => if b = "REL1_39" then { envAllOk with branchExists := false }
                  else envAllOk)
        ("REL1_39" :: ["REL1_43"]) ⟨∅, ∅, none⟩
      = (process_branches false "VisualEditor"
          (fun b => if b = "REL1_39" then { envAllOk with branchExists := false }
                    else envAllOk)
          ["REL1_43"] ⟨∅, ∅, none⟩).bind
          (fun q => .ok (q.1, ("REL1_39", .skippedCheckout) :: q.2))) :=
  ⟨by decide, by decide, by decide,
   c3_try_block_is_skip_scope false "VisualEditor" "REL1_39"
     { envAllOk with branchExists := false } envFetchFails ⟨∅, ∅, none⟩
     ["REL1_43"]
     (fun b => if b = "REL1_39" then { envAllOk with branchExists := false }
               else envAllOk)
     (by decide) (by decide) (by decide) (by decide) (by decide) (by decide)⟩

/-- C4: in one batch, repositories whose update raises an ordinary
exception are logged and skipped without stopping the loop - every
repository in the list is attempted and the run is not aborted - while a
`KeyboardInterrupt` on some repository stops the batch right there via
`sys.exit(1)`, leaving the remaining repositories unattempted. -/
theorem c4_repository_isolation (outcome outcome₂ : String → RepoOutcome)
    (repos rest₂ : List String) (r₂ : String)
    (h : ∀ r ∈ repos, outcome r ≠ .interrupted)
    (h₂ : outcome₂ r₂ = .interrupted) :
    run_repos outcome repos = (repos, false) ∧
    run_repos outcome₂ (r₂ :: rest₂) = ([r₂], true) := by
  constructor
  · induction repos with
    | nil => rfl
    | cons r rest ih =>
      have hr : outcome r ≠ .interrupted := h r (List.mem_cons_self _ _)
      have hrest : ∀ x ∈ rest, outcome x ≠ .interrupted :=
        fun x hx => h x (List.mem_cons_of_mem _ hx)
      cases hout : outcome r with
      | interrupted => exact absurd hout hr
      | ok => simp [run_repos, hout, ih hrest]
      | failed => simp [run_repos, hout, ih hrest]
  · rw [run_repos, h₂]

/-- Witness for `c4_repository_isolation`: `VisualEditor` fails but
`Vector` and `Echo` are still processed; an interrupt at `VisualEditor`
stops the other batch at once. -/
theorem c4_repository_isolation_witness :
    (∀ r ∈ ["VisualEditor", "Vector", "Echo"],
      (fun x => if x = "VisualEditor" then RepoOutcome.failed else .ok) r
        ≠ .interrupted) ∧
    (fun _ : String => RepoOutcome.interrupted) "VisualEditor"
      = .interrupted ∧
    (run_repos (fun x => if x = "VisualEditor" then RepoOutcome.failed else .ok)
        ["VisualEditor", "Vector", "Echo"]
      = (["VisualEditor", "Vector", "Echo"], false) ∧
     run_repos (fun _ => RepoOutcome.interrupted)
        ("VisualEditor" :: ["Vector", "Echo"]) = (["VisualEditor"], true)) :=
  ⟨by decide, by decide,
   c4_repository_isolation
     (fun x => if x = "VisualEditor" then RepoOutcome.failed else .ok)
     (fun _ => RepoOutcome.interrupted)
     ["VisualEditor", "Vector", "Echo"] ["Vector", "Echo"] "VisualEditor"
     (by decide) (by decide)⟩

/-- C5: when the 7-hex-digit prefix of HEAD's hash is ambiguous in the
object store (unique abbreviation length 8 here), `git rev-parse
--short=7` prints 8 digits, and line 179 stores them unshortened: the
extracted revision has length 8, not 7.  This refutes "exactly 7
hexadecimal characters long - never shorter and never longer". -/
theorem c5_ambiguous_prefix_gives_longer_rev :
    (extract_rev
        (rev_parse_short7 "00000000895b9041785fd7fbf325eee80bacb8ca" 8 ++ "\n")
      ).data.length ≠ 7 ∧
    extract_rev
        (rev_parse_short7 "00000000895b9041785fd7fbf325eee80bacb8ca" 8 ++ "\n")
      = "00000000" := by decide

/-- C5 (amended): the extracted short revision always has at least 7
characters, and has exactly 7 characters precisely when the unique
abbreviation length of the repository does not exceed 7 - the code never
truncates a longer abbreviation. -/
theorem c5_rev_at_least_seven (sha : String) (u : Nat)
    (h : max 7 u ≤ sha.data.length) :
    7 ≤ (rev_parse_short7 sha u).data.length ∧
    ((rev_parse_short7 sha u).data.length = 7 ↔ u ≤ 7) := by
  have hlen : (rev_parse_short7 sha u).data.length = max 7 u := by
    show (sha.data.take (max 7 u)).length = max 7 u
    rw [List.length_take]
    exact min_eq_left h
  rw [hlen]
  exact ⟨le_max_left _ _, max_eq_left_iff⟩

/-- Witness for `c5_rev_at_least_seven` on a 40-hex-digit hash with
unique abbreviation length 8. -/
theorem c5_rev_at_least_seven_witness :
    max 7 8 ≤ "00000000895b9041785fd7fbf325eee80bacb8ca".data.length ∧
    (7 ≤ (rev_parse_short7 "00000000895b9041785fd7fbf325eee80bacb8ca" 8
        ).data.length ∧
     ((rev_parse_short7 "00000000895b9041785fd7fbf325eee80bacb8ca" 8
        ).data.length = 7 ↔ 8 ≤ 7)) :=
  ⟨by decide,
   c5_rev_at_least_seven "00000000895b9041785fd7fbf325eee80bacb8ca" 8
     (by decide)⟩

/-- The `branch` field of the provenance record is exactly the
branch-derivation pipeline applied to the raw `.git/HEAD` content. -/
theorem mk_git_info_branch (ext : String) (env : GitEnv) :
    (mk_git_info ext env).branch
      = String.mk (derive_branchL (derive_head env.headContent.data)) := rfl

/-- C6: git writes `.git/HEAD` with a trailing newline, and lines 197-208
never strip whitespace: for the HEAD file `"ref: refs/heads/main\n"` the
derived branch name is `"main\n"`, not exactly `"main"`.  This refutes
"the derived branch name is exactly the final path segment (e.g. exactly
\"main\")". -/
theorem c6_branch_keeps_newline :
    (mk_git_info "VisualEditor" envMainHead).branch ≠ "main" ∧
    (mk_git_info "VisualEditor" envMainHead).branch = "main\n" := by decide

/-- C6 (amended): for a HEAD file of the shape
`"ref: refs/heads/" ++ seg` with a slash-free tail `seg`, the derived
branch name is `seg` verbatim - including the trailing newline the HEAD
file carries, since nothing is stripped (so for git's actual file
`"ref: refs/heads/main\n"` the branch is `"main\n"`); for a detached
HEAD (content neither a symbolic ref nor a branch path) the branch name
is the raw file content verbatim. -/
theorem c6_branch_final_segment_verbatim (env₁ env₂ : GitEnv) (ext : String)
    (seg : List Char) (hseg : '/' ∉ seg)
    (h₁ : env₁.headContent.data = "ref: refs/heads/".data ++ seg)
    (h₂ : "ref:".data.isPrefixOf env₂.headContent.data = false)
    (h₂' : "refs/heads".data.isPrefixOf env₂.headContent.data = false) :
    (mk_git_info ext env₁).branch = String.mk seg ∧
    (mk_git_info ext env₂).branch = env₂.headContent := by
  constructor
  · have hpre : "ref:".data.isPrefixOf ("ref: refs/heads/".data ++ seg)
        = true := by
      have e₁ : "ref: refs/heads/".data ++ seg
          = "ref:".data ++ (" refs/heads/".data ++ seg) := rfl
      rw [e₁]
      exact isPrefixOf_append_self _ _
    have hdrop : ("ref: refs/heads/".data ++ seg).drop 5
        = "refs/heads/".data ++ seg := by
      have e₂ : "ref: refs/heads/".data ++ seg
          = "ref: ".data ++ ("refs/heads/".data ++ seg) := rfl
      rw [e₂]
      exact List.drop_left' rfl
    have hhead : derive_head env₁.headContent.data
        = "refs/heads/".data ++ seg := by
      rw [h₁, derive_head, if_pos]
      · exact hdrop
      · exact hpre
    have hpre2 : "refs/heads".data.isPrefixOf ("refs/heads/".data ++ seg)
        = true := by
      have e₃ : "refs/heads/".data ++ seg
          = "refs/heads".data ++ ('/' :: seg) := rfl
      rw [e₃]
      exact isPrefixOf_append_self _ _
    have hlast : lastSegment ("refs/heads/".data ++ seg) = seg := by
      have e₃ : "refs/heads/".data ++ seg
          = "refs/heads".data ++ ('/' :: seg) := rfl
      rw [e₃]
      exact lastSegment_append_no_slash _ _ hseg
    rw [mk_git_info_branch, hhead, derive_branchL, if_pos]
    · rw [hlast]
    · exact hpre2
  · rw [mk_git_info_branch, derive_head, if_neg (by simp [h₂]),
      derive_branchL, if_neg (by simp [h₂'])]

/-- Witness for `c6_branch_final_segment_verbatim`: the newline-terminated
branch HEAD `"ref: refs/heads/main\n"` and a detached HEAD holding a raw
commit id. -/
theorem c6_branch_final_segment_verbatim_witness :
    '/' ∉ "main\n".data ∧
    envMainHead.headContent.data = "ref: refs/heads/".data ++ "main\n".data ∧
    "ref:".data.isPrefixOf envDetached.headContent.data = false ∧
    "refs/heads".data.isPrefixOf envDetached.headContent.data = false ∧
    ((mk_git_info "VisualEditor" envMainHead).branch
        = String.mk "main\n".data ∧
     (mk_git_info "VisualEditor" envDetached).branch
        = envDetached.headContent) :=
  ⟨by decide, by decide, by decide, by decide,
   c6_branch_final_segment_verbatim envMainHead envDetached "VisualEditor"
     "main\n".data (by decide) (by decide) (by decide) (by decide)⟩

/-- C7: the already-published test of line 182 fires before the
provenance block of lines 195-212 is ever reached: skipping the branch
leaves the checkout's `gitinfo.json` exactly as it was (here: never
written), so provenance extraction does not run on the skip path.  This
refutes "provenance extraction still runs … despite the skip". -/
theorem c7_skip_precedes_provenance :
    process_branch false "VisualEditor" "REL1_43" envAllOk
        ⟨{tarball_fname "VisualEditor" "REL1_43"}, ∅, none⟩
      = .ok (⟨{tarball_fname "VisualEditor" "REL1_43"}, ∅, none⟩,
             .skippedExists "0a1b2c3") ∧
    FSState.gitinfo ⟨{tarball_fname "VisualEditor" "REL1_43"}, ∅, none⟩
      = none := by decide

/-- C7 (amended): when the publisher skips because the artifact already
exists and force is unset, only the short-revision extraction of line 179
has run; the provenance record is not (re)generated - the state,
including `gitinfo.json`, is returned untouched.  The provenance record
is written exactly on the build path. -/
theorem c7_no_provenance_on_skip (ext branch : String) (env : GitEnv)
    (s s' : FSState) (hok : gitOk env = true)
    (hmem : tarball_fname ext branch ∈ s.distFiles)
    (hnew : tarball_fname ext branch ∉ s'.distFiles) :
    process_branch false ext branch env s
      = .ok (s, .skippedExists (extract_rev env.revOut)) ∧
    process_branch false ext branch env s'
      = .ok ({ distFiles := prune_dist ext branch s'.distFiles
               srcFiles := insert (tarball_fname ext branch) s'.srcFiles
               gitinfo := some (mk_git_info ext env) },
             .built (extract_rev env.revOut) (mk_git_info ext env)) :=
  ⟨process_branch_skip ext branch env s hok hmem,
   process_branch_build false ext branch env s' hok (by simp [hnew])⟩

/-- Witness for `c7_no_provenance_on_skip`: an already-published key is
skipped with no provenance write; an unpublished key is built with a
provenance write. -/
theorem c7_no_provenance_on_skip_witness :
    gitOk envAllOk = true ∧
    tarball_fname "VisualEditor" "REL1_43" ∈
      (FSState.mk {tarball_fname "VisualEditor" "REL1_43"} ∅ none).distFiles ∧
    tarball_fname "VisualEditor" "REL1_43" ∉
      (FSState.mk ∅ ∅ none).distFiles ∧
    (process_branch false "VisualEditor" "REL1_43" envAllOk
        ⟨{tarball_fname "VisualEditor" "REL1_43"}, ∅, none⟩
      = .ok (⟨{tarball_fname "VisualEditor" "REL1_43"}, ∅, none⟩,
             .skippedExists (extract_rev envAllOk.revOut)) ∧
     process_branch false "VisualEditor" "REL1_43" envAllOk ⟨∅, ∅, none⟩
      = .ok ({ distFiles := prune_dist "VisualEditor" "REL1_43" (∅ : Finset String)
               srcFiles := insert (tarball_fname "VisualEditor" "REL1_43") (∅ : Finset String)
               gitinfo := some (mk_git_info "VisualEditor" envAllOk) },
             .built (extract_rev envAllOk.revOut)
               (mk_git_info "VisualEditor" envAllOk))) :=
  ⟨by decide, by decide, by decide,
   c7_no_provenance_on_skip "VisualEditor" "REL1_43" envAllOk
     ⟨{tarball_fname "VisualEditor" "REL1_43"}, ∅, none⟩ ⟨∅, ∅, none⟩
     (by decide) (by decide) (by decide)⟩

/-- C8: publishing the same (repository, branch, revision) twice without
force: the first run builds and installs the canonical artifact; the
publish directory then holds exactly one file with the key's canonical
name; the second run takes the skip path of line 182 and returns the
state completely unchanged - the artifact is not rewritten, so its
content and timestamp are untouched. -/
theorem c8_publish_idempotent (ext branch : String) (env : GitEnv)
    (s : FSState) (hok : gitOk env = true) (hsrc : s.srcFiles = ∅)
    (hnew : tarball_fname ext branch ∉ s.distFiles)
    (hglob : glob_targz (tarball_fname ext branch) = true) :
    ∃ s₁,
      update_extension false ext [branch] (fun _ => env) s
        = .ok (s₁, [(branch,
            .built (extract_rev env.revOut) (mk_git_info ext env))]) ∧
      s₁.distFiles.filter (fun f => f = tarball_fname ext branch)
        = {tarball_fname ext branch} ∧
      update_extension false ext [branch] (fun _ => env) s₁
        = .ok (s₁, [(branch, .skippedExists (extract_rev env.revOut))]) := by
  have hpb := process_branch_build false ext branch env s hok
    (by simp [hnew])
  have hins : insert (tarball_fname ext branch) s.srcFiles
      = {tarball_fname ext branch} := by rw [hsrc]; rfl
  have hfilt : ({tarball_fname ext branch} : Finset String).filter
      (fun f => glob_targz f = true) = {tarball_fname ext branch} := by
    rw [Finset.filter_singleton, if_pos hglob]
  have hfilt2 : ({tarball_fname ext branch} : Finset String).filter
      (fun f => glob_targz f = false) = ∅ := by
    rw [Finset.filter_singleton, if_neg (by simp [hglob])]
  have hmem₁ : tarball_fname ext branch ∈
      prune_dist ext branch s.distFiles ∪ {tarball_fname ext branch} :=
    Finset.mem_union_right _ (Finset.mem_singleton_self _)
  refine ⟨⟨prune_dist ext branch s.distFiles ∪ {tarball_fname ext branch},
           ∅, some (mk_git_info ext env)⟩, ?_, ?_, ?_⟩
  · rw [update_extension, process_branches, hpb]
    simp only [Except.bind, process_branches, Except.map, move_tarballs,
      hins, hfilt, hfilt2]
  · rw [Finset.filter_eq', if_pos hmem₁]
  · have hskip := process_branch_skip ext branch env
      ⟨prune_dist ext branch s.distFiles ∪ {tarball_fname ext branch},
       ∅, some (mk_git_info ext env)⟩ hok hmem₁
    rw [update_extension, process_branches, hskip]
    simp only [Except.bind, process_branches, Except.map, move_tarballs]
    simp [Finset.filter_empty, Finset.union_empty]

/-- Witness for `c8_publish_idempotent` on an initially empty publish
directory. -/
theorem c8_publish_idempotent_witness :
    gitOk envAllOk = true ∧
    (FSState.mk ∅ ∅ none).srcFiles = ∅ ∧
    tarball_fname "VisualEditor" "REL1_43" ∉ (FSState.mk ∅ ∅ none).distFiles ∧
    glob_targz (tarball_fname "VisualEditor" "REL1_43") = true ∧
    (∃ s₁,
      update_extension false "VisualEditor" ["REL1_43"] (fun _ => envAllOk)
          ⟨∅, ∅, none⟩
        = .ok (s₁, [("REL1_43",
            .built (extract_rev envAllOk.revOut)
              (mk_git_info "VisualEditor" envAllOk))]) ∧
      s₁.distFiles.filter (fun f => f = tarball_fname "VisualEditor" "REL1_43")
        = {tarball_fname "VisualEditor" "REL1_43"} ∧
      update_extension false "VisualEditor" ["REL1_43"] (fun _ => envAllOk) s₁
        = .ok (s₁, [("REL1_43",
            .skippedExists (extract_rev envAllOk.revOut))])) :=
  ⟨by decide, by decide, by decide, by decide,
   c8_publish_idempotent "VisualEditor" "REL1_43" envAllOk ⟨∅, ∅, none⟩
     (by decide) (by decide) (by decide) (by decide)⟩

/-- C9: a lock file whose content does not parse as an integer makes
`int(old_pid)` on line 121 raise an uncaught `ValueError`: the run
aborts (exit status 1) instead of overwriting the lock and proceeding.
This refutes "whenever the lock file is absent, unreadable, or records
the pid of a process that is not running, a new run proceeds". -/
theorem c9_unparsable_lock_raises :
    init_model (fun _ => false) 7 ⟨some "stale-lock", true, true⟩
      = (⟨some "stale-lock", true, true⟩, .raised "ValueError") ∧
    init_exit_status (.raised "ValueError") = some 1 := by decide

/-- C9 (amended): when the lock file is absent, or parses to the pid of a
process that is not running, the run proceeds and overwrites the lock
file with the current process id; a lock file that cannot be parsed as an
integer instead aborts the run with an uncaught `ValueError` (see
`c9_unparsable_lock_raises`). -/
theorem c9_stale_or_absent_lock_overridden (alive : Int → Bool) (myPid : Nat)
    (st₁ st₂ : InitState) (content : String) (p : Int)
    (h₁ : st₁.pidFile = none)
    (h₂ : st₂.pidFile = some content)
    (hparse : pythonInt? content = some p) (hdead : alive p = false) :
    init_model alive myPid st₁
      = ({ pidFile := some (toString myPid), extPathExists := true,
           distPathExists := true }, .proceeded) ∧
    init_model alive myPid st₂
      = ({ pidFile := some (toString myPid), extPathExists := true,
           distPathExists := true }, .proceeded) := by
  constructor
  · simp [init_model, h₁]
  · simp [init_model, h₂, hparse, hdead]

/-- Witness for `c9_stale_or_absent_lock_overridden`: an absent lock file
and a lock file recording dead pid 41 (with surrounding whitespace, which
Python's `int` accepts). -/
theorem c9_stale_or_absent_lock_overridden_witness :
    (InitState.mk none false false).pidFile = none ∧
    (InitState.mk (some " 41\n") true false).pidFile = some " 41\n" ∧
    pythonInt? " 41\n" = some 41 ∧
    (fun _ : Int => false) 41 = false ∧
    (init_model (fun _ => false) 7 ⟨none, false, false⟩
      = ({ pidFile := some (toString 7), extPathExists := true,
           distPathExists := true }, .proceeded) ∧
     init_model (fun _ => false) 7 ⟨some " 41\n", true, false⟩
      = ({ pidFile := some (toString 7), extPathExists := true,
           distPathExists := true }, .proceeded)) :=
  ⟨rfl, rfl, by decide, rfl,
   c9_stale_or_absent_lock_overridden (fun _ => false) 7
     ⟨none, false, false⟩ ⟨some " 41\n", true, false⟩ " 41\n" 41
     rfl rfl (by decide) rfl⟩

/-- C10: after the branch loop of a repository, lines 228-232 move every
file matching `*.tar.gz` found in the shared source working root into the
publish directory - whatever run or repository left it there - and the
source root retains none of them. -/
theorem c10_moves_every_leftover_tarball (force : Bool) (ext : String)
    (branches : List String) (envs : String → GitEnv) (s s₁ : FSState)
    (outs : List (String × BranchOutcome)) (f : String)
    (hrun : update_extension force ext branches envs s = .ok (s₁, outs))
    (hf : f ∈ s.srcFiles) (hglob : glob_targz f = true) :
    f ∈ s₁.distFiles ∧ f ∉ s₁.srcFiles := by
  rw [update_extension] at hrun
  cases hp : process_branches force ext envs branches s with
  | error e => rw [hp] at hrun; cases hrun
  | ok q =>
    rw [hp] at hrun
    obtain ⟨s', outs'⟩ := q
    simp only [Except.map, Except.ok.injEq, Prod.mk.injEq] at hrun
    have hs : f ∈ s'.srcFiles := process_branches_src_mono hp hf
    rw [← hrun.1, move_tarballs]
    constructor
    · exact Finset.mem_union_right _ (Finset.mem_filter.mpr ⟨hs, hglob⟩)
    · intro hbad
      have hfalse := (Finset.mem_filter.mp hbad).2
      rw [hglob] at hfalse
      cases hfalse

/-- Witness for `c10_moves_every_leftover_tarball`: a tarball left behind
by another repository (`OldLeftover`) is swept into the publish directory
by `VisualEditor`'s update. -/
theorem c10_moves_every_leftover_tarball_witness :
    update_extension false "VisualEditor" ["REL1_43"] (fun _ => envAllOk)
        ⟨∅, {"OldLeftover-REL1_39.tar.gz"}, none⟩
      = .ok (⟨{"VisualEditor-REL1_43.tar.gz", "OldLeftover-REL1_39.tar.gz"},
              ∅, some (mk_git_info "VisualEditor" envAllOk)⟩,
             [("REL1_43", .built "0a1b2c3"
                (mk_git_info "VisualEditor" envAllOk))]) ∧
    "OldLeftover-REL1_39.tar.gz" ∈
      (FSState.mk {"VisualEditor-REL1_43.tar.gz", "OldLeftover-REL1_39.tar.gz"}
        ∅ (some (mk_git_info "VisualEditor" envAllOk))).distFiles ∧
    "OldLeftover-REL1_39.tar.gz" ∉
      (FSState.mk {"VisualEditor-REL1_43.tar.gz", "OldLeftover-REL1_39.tar.gz"}
        ∅ (some (mk_git_info "VisualEditor" envAllOk))).srcFiles :=
  ⟨by decide,
   (c10_moves_every_leftover_tarball false "VisualEditor" ["REL1_43"]
     (fun _ => envAllOk) ⟨∅, {"OldLeftover-REL1_39.tar.gz"}, none⟩
     ⟨{"VisualEditor-REL1_43.tar.gz", "OldLeftover-REL1_39.tar.gz"},
       ∅, some (mk_git_info "VisualEditor" envAllOk)⟩
     [("REL1_43", .built "0a1b2c3" (mk_git_info "VisualEditor" envAllOk))]
     "OldLeftover-REL1_39.tar.gz" (by decide) (by decide) (by decide)).1,
   (c10_moves_every_leftover_tarball false "VisualEditor" ["REL1_43"]
     (fun _ => envAllOk) ⟨∅, {"OldLeftover-REL1_39.tar.gz"}, none⟩
     ⟨{"VisualEditor-REL1_43.tar.gz", "OldLeftover-REL1_39.tar.gz"},
       ∅, some (mk_git_info "VisualEditor" envAllOk)⟩
     [("REL1_43", .built "0a1b2c3" (mk_git_info "VisualEditor" envAllOk))]
     "OldLeftover-REL1_39.tar.gz" (by decide) (by decide) (by decide)).2⟩
